import Mathlib

/-!
Shallow embedding of `MCP48xx.py`, a MicroPython driver for the MCP4802/4812/4822
family of dual-channel SPI DACs, together with proofs of the specified properties.

The driver keeps per-channel state (enabled flag, gain flag, raw value), encodes a
channel's state into a two-byte frame, and writes the frame over SPI bracketed by
chip-select transitions.  Pin and bus side effects are modelled as explicit event
traces; Python exceptions are modelled as `Option`/`Except` error values.
-/

namespace MCP48xx

/-- Python exceptions raised by the driver: `ValueError` with its message, and the
bus-level failure an `spi.write` call may raise (injected by a fault double). -/
inductive PyError where
  | valueError (msg : String)
  | transportError
  deriving DecidableEq

/-- Observable bus/pin events emitted while an operation runs: chip-select
transitions (pin off = low, pin on = high) and an `spi.write(buf)` call. -/
inductive BusEvent where
  | csLow
  | csHigh
  | spiWrite (buf : List Nat)
  deriving DecidableEq

/-- Observable side effects of `__init__`: creation of a `Pin` object for a given
pin number, the initial `chipSelectHigh()` call, and creation of the `SPI` object. -/
inductive InitEvent where
  | createPin (pin : Nat)
  | csHighInit
  | createSPI
  deriving DecidableEq

/-- Constants from `TYPE_OF_MCP48xx` (the model number is the resolution in bits). -/
def MCP4822 : Nat := 12

/-- Model constant for the 10-bit chip. -/
def MCP4812 : Nat := 10

/-- Model constant for the 8-bit chip. -/
def MCP4802 : Nat := 8

/-- Constant `self.HIGH` from `__init__`. -/
def HIGH : Nat := 1

/-- Constant `self.LOW` from `__init__`. -/
def LOW : Nat := 0

/-- Constant `self.CHAN_B` from `__init__`. -/
def CHAN_B : Nat := 1

/-- Constant `self.CHAN_A` from `__init__`. -/
def CHAN_A : Nat := 0

/-- The mutable instance attributes of an `MCP48XX` object (lines 78-98 of the
source).  `data_A`/`data_B` are the two-byte buffers allocated in `__init__`;
`dataA`/`dataB` are the differently named attributes that `updateDAC_per_chan`
assigns the encoded frame to (absent until first assigned, hence `Option`).
Raw values are stored as `Nat`: `setValue` validates `0 <= value` before storing. -/
structure MCPState where
  model : Nat
  max : Nat
  data_A : List Nat
  data_B : List Nat
  on_A : Bool
  on_B : Bool
  gain_A : Bool
  gain_B : Bool
  raw_value_A : Nat
  raw_value_B : Nat
  dataA : Option (List Nat)
  dataB : Option (List Nat)
  chipselect_state : Nat
  deriving DecidableEq

/-- `chipSelectHigh` (lines 147-149): record the state and emit the pin-on event. -/
def chipSelectHigh (s : MCPState) : MCPState × List BusEvent :=
  ({ s with chipselect_state := HIGH }, [BusEvent.csHigh])

/-- `chipSelectLow` (lines 151-153): record the state and emit the pin-off event. -/
def chipSelectLow (s : MCPState) : MCPState × List BusEvent :=
  ({ s with chipselect_state := LOW }, [BusEvent.csLow])

/-- The attribute state produced by a successful `__init__` with the given model
(lines 78-98): buffers zeroed, both channels off, gain unset, raw values 0, the
frame attributes not yet assigned, and chip select driven high. -/
def initState (model : Nat) : MCPState where
  model := model
  max := 2 ^ model
  data_A := [0, 0]
  data_B := [0, 0]
  on_A := false
  on_B := false
  gain_A := false
  gain_B := false
  raw_value_A := 0
  raw_value_B := 0
  dataA := none
  dataB := none
  chipselect_state := HIGH

/-- `__init__` (lines 56-104).  Returns the trace of pin/bus creation events in
source order together with either the constructed state or the raised error.
The chip-select `Pin` object is created at line 66, before the model filter at
lines 71-74; the clock/data pins, the `chipSelectHigh()` call and the `SPI`
object come only after the filter passes. -/
def mcp_init (model cs sck_pin mosi_pin miso_pin : Nat) :
    List InitEvent × Except PyError MCPState :=
  let ev := [InitEvent.createPin cs]
  if ¬ (model = MCP4822 ∨ model = MCP4812 ∨ model = MCP4802) then
    (ev, Except.error (PyError.valueError "Not a valid type, use MCP4822, MCP4812, MCP4802"))
  else
    (ev ++ [InitEvent.createPin sck_pin, InitEvent.createPin mosi_pin,
            InitEvent.createPin miso_pin, InitEvent.csHighInit, InitEvent.createSPI],
     Except.ok (initState model))

/-- The frame built into `buf` by `updateDAC_per_chan` (lines 111-135), for either
branch: `buf[0]` collects the channel-select bit `2^7`, the gain bit `2^5`, the
enable bit `2^4` and the high nibble `raw >> 8 & 15` of the data; `buf[1] = raw`
stores the low byte (MicroPython bytearray assignment keeps the low 8 bits). -/
def encodeBuf (chanB gain enabled : Bool) (raw : Nat) : List Nat :=
  let b0 : Nat := 0
  let b0 := if chanB then b0 ||| 2 ^ 7 else b0
  let b0 := if gain then b0 ||| 2 ^ 5 else b0
  let b0 := if enabled then b0 ||| 2 ^ 4 else b0
  let b0 := b0 ||| ((raw >>> 8) &&& 15)
  let b1 := raw % 256
  [b0, b1]

/-- The `try: chipSelectLow(); spi.write(buf) finally: chipSelectHigh()` block
(lines 140-145).  The chip-select transitions and the write attempt are emitted
in source order; when the bus double makes `spi.write` raise, the `finally`
clause still runs `chipSelectHigh` and the `TransportError` propagates. -/
def writeFramed (writeFails : Bool) (s : MCPState) (buf : List Nat) :
    MCPState × List BusEvent × Option PyError :=
  let (s1, evLow) := chipSelectLow s
  let (s2, evHigh) := chipSelectHigh s1
  (s2, evLow ++ [BusEvent.spiWrite buf] ++ evHigh,
   if writeFails then some PyError.transportError else none)

/-- `updateDAC_per_chan` (lines 110-145): encode the selected channel's current
state into `buf`, stash it in `self.dataB` / `self.dataA`, then perform the
framed SPI write. -/
def updateDAC_per_chan (writeFails : Bool) (s : MCPState) (channel : Nat) :
    MCPState × List BusEvent × Option PyError :=
  if channel = CHAN_B then
    let buf := encodeBuf true s.gain_B s.on_B s.raw_value_B
    writeFramed writeFails { s with dataB := some buf } buf
  else
    let buf := encodeBuf false s.gain_A s.on_A s.raw_value_A
    writeFramed writeFails { s with dataA := some buf } buf

/-- `updateDAC` (lines 106-108): channel A then channel B; an exception raised
while writing channel A propagates and channel B is not written. -/
def updateDAC (writeFails : Bool) (s : MCPState) :
    MCPState × List BusEvent × Option PyError :=
  let rA := updateDAC_per_chan writeFails s CHAN_A
  match rA.2.2 with
  | some e => (rA.1, rA.2.1, some e)
  | none =>
    let rB := updateDAC_per_chan writeFails rA.1 CHAN_B
    (rB.1, rA.2.1 ++ rB.2.1, rB.2.2)

/-- `turnOnChannelA` (lines 179-180). -/
def turnOnChannelA (s : MCPState) : MCPState := { s with on_A := true }

/-- `turnOnChannelB` (lines 182-183). -/
def turnOnChannelB (s : MCPState) : MCPState := { s with on_B := true }

/-- `shutdownChannelA` (lines 185-186). -/
def shutdownChannelA (s : MCPState) : MCPState := { s with on_A := false }

/-- `shutdownChannelB` (lines 188-189). -/
def shutdownChannelB (s : MCPState) : MCPState := { s with on_B := false }

/-- `setGainA` (lines 191-192). -/
def setGainA (s : MCPState) : MCPState := { s with gain_A := true }

/-- `setGainB` (lines 194-195). -/
def setGainB (s : MCPState) : MCPState := { s with gain_B := true }

/-- `setValueA` (lines 155-165): reject underflow, then overflow, each before any
mutation; otherwise enable channel A, store the value, and update the DAC. -/
def setValueA (writeFails : Bool) (s : MCPState) (value : Int) :
    MCPState × List BusEvent × Option PyError :=
  if value < 0 then
    (s, [], some (PyError.valueError "Underflow value detected"))
  else if (s.max : Int) ≤ value then
    (s, [], some (PyError.valueError "Overflow value detected for configured chip"))
  else
    let s := turnOnChannelA s
    let s := { s with raw_value_A := value.toNat }
    updateDAC_per_chan writeFails s CHAN_A

/-- `setValueB` (lines 167-177): same as `setValueA` for channel B (the overflow
message differs between the two methods in the source). -/
def setValueB (writeFails : Bool) (s : MCPState) (value : Int) :
    MCPState × List BusEvent × Option PyError :=
  if value < 0 then
    (s, [], some (PyError.valueError "Underflow value detected"))
  else if (s.max : Int) ≤ value then
    (s, [], some (PyError.valueError "Overflow value reached for configured chip"))
  else
    let s := turnOnChannelB s
    let s := { s with raw_value_B := value.toNat }
    updateDAC_per_chan writeFails s CHAN_B

/-- The public operations of the driver, for reasoning about arbitrary call
sequences on a constructed device. -/
inductive Op where
  | valA (v : Int)
  | valB (v : Int)
  | gainA
  | gainB
  | onA
  | onB
  | offA
  | offB
  | updAll
  | updChan (c : Nat)
  deriving DecidableEq

/-- Run one public operation, returning the new state, the bus/pin event trace,
and the raised error if any. -/
def runOp (writeFails : Bool) (s : MCPState) : Op → MCPState × List BusEvent × Option PyError
  | Op.valA v => setValueA writeFails s v
  | Op.valB v => setValueB writeFails s v
  | Op.gainA => (setGainA s, [], none)
  | Op.gainB => (setGainB s, [], none)
  | Op.onA => (turnOnChannelA s, [], none)
  | Op.onB => (turnOnChannelB s, [], none)
  | Op.offA => (shutdownChannelA s, [], none)
  | Op.offB => (shutdownChannelB s, [], none)
  | Op.updAll => updateDAC writeFails s
  | Op.updChan c => updateDAC_per_chan writeFails s c

/-- Run a sequence of public operations, threading the state. -/
def runOps (writeFails : Bool) (s : MCPState) : List Op → MCPState
  | [] => s
  | op :: rest => runOps writeFails (runOp writeFails s op).1 rest

/-- The 16-bit frame value of a two-byte buffer, high byte first (the SPI bus is
configured MSB-first, so `buf[0]` carries bits 15-8 and `buf[1]` bits 7-0). -/
def frameOfBuf : List Nat → Nat
  | [b0, b1] => b0 * 256 + b1
  | _ => 0

/-- The 16-bit frame last stored for channel A (`self.dataA`), 0 if never set. -/
def lastFrameA (s : MCPState) : Nat := frameOfBuf (s.dataA.getD [])

/-- The 16-bit frame last stored for channel B (`self.dataB`), 0 if never set. -/
def lastFrameB (s : MCPState) : Nat := frameOfBuf (s.dataB.getD [])

/-- Invariant: each channel's stored raw value is below the configured maximum. -/
def rawInv (s : MCPState) : Prop :=
  s.raw_value_A < s.max ∧ s.raw_value_B < s.max

/-! ### Arithmetic helper lemmas about the frame encoding -/

lemma and15_eq_mod (x : Nat) : x &&& 15 = x % 16 := by
  have h := Nat.and_pow_two_sub_one_eq_mod x 4
  norm_num at h
  exact h

lemma and4095_eq_mod (x : Nat) : x &&& 4095 = x % 4096 := by
  have h := Nat.and_pow_two_sub_one_eq_mod x 12
  norm_num at h
  exact h

lemma lor_nibble : ∀ x : Nat, x < 16 →
    ((16 ||| x : Nat) = 16 + x) ∧ ((32 ||| x : Nat) = 32 + x) ∧
    ((48 ||| x : Nat) = 48 + x) ∧ ((128 ||| x : Nat) = 128 + x) ∧
    ((144 ||| x : Nat) = 144 + x) ∧ ((160 ||| x : Nat) = 160 + x) ∧
    ((176 ||| x : Nat) = 176 + x) := by
  decide

/-- Master identity for the encoded frame: for an in-range raw value, the 16-bit
frame is exactly the sum of the channel-select, gain and power bits with the
data value. -/
lemma encodeBuf_frame_val (cB g o : Bool) (raw : Nat) (h : raw < 4096) :
    frameOfBuf (encodeBuf cB g o raw) =
      (if cB then 32768 else 0) + (if g then 8192 else 0) +
      (if o then 4096 else 0) + raw := by
  have hx : (raw >>> 8) &&& 15 = raw / 256 % 16 := by
    rw [Nat.shiftRight_eq_div_pow, and15_eq_mod]
  have h16 : raw / 256 % 16 < 16 := Nat.mod_lt _ (by norm_num)
  have hor := lor_nibble (raw / 256 % 16) h16
  cases cB <;> cases g <;> cases o <;>
      simp [encodeBuf, frameOfBuf, hx, hor.1, hor.2.1, hor.2.2.1, hor.2.2.2.1,
        hor.2.2.2.2.1, hor.2.2.2.2.2.1, hor.2.2.2.2.2.2] <;>
    omega

/-- Decoding the low 12 bits of an encoded frame recovers the raw value. -/
lemma encodeBuf_frame_data (cB g o : Bool) (raw : Nat) (h : raw < 4096) :
    frameOfBuf (encodeBuf cB g o raw) &&& 4095 = raw := by
  rw [and4095_eq_mod, encodeBuf_frame_val cB g o raw h]
  cases cB <;> cases g <;> cases o <;> simp <;> omega

/-- Bit 12 of an encoded frame is the channel's enabled flag. -/
lemma encodeBuf_testBit12 (cB g o : Bool) (raw : Nat) (h : raw < 4096) :
    Nat.testBit (frameOfBuf (encodeBuf cB g o raw)) 12 = o := by
  rw [encodeBuf_frame_val cB g o raw h, Nat.testBit_to_div_mod]
  cases cB <;> cases g <;> cases o <;> simp <;> omega

/-- Bit 15 of an encoded frame is the channel-select flag. -/
lemma encodeBuf_testBit15 (cB g o : Bool) (raw : Nat) (h : raw < 4096) :
    Nat.testBit (frameOfBuf (encodeBuf cB g o raw)) 15 = cB := by
  rw [encodeBuf_frame_val cB g o raw h, Nat.testBit_to_div_mod]
  cases cB <;> cases g <;> cases o <;> simp <;> omega

/-- Bit 13 of an encoded frame is the channel's gain flag. -/
lemma encodeBuf_testBit13 (cB g o : Bool) (raw : Nat) (h : raw < 4096) :
    Nat.testBit (frameOfBuf (encodeBuf cB g o raw)) 13 = g := by
  rw [encodeBuf_frame_val cB g o raw h, Nat.testBit_to_div_mod]
  cases cB <;> cases g <;> cases o <;> simp <;> omega

/-! ### The claims -/

/-- C1: for every resolution `r ∈ {8, 10, 12}` and every `value ∈ [0, 2^r)`, after
`setValue` stores the value, encoding the channel's frame (`updateDAC_per_chan`)
and decoding bits 11-0 of the resulting 16-bit frame yields exactly that value;
in particular, with resolution 12, `setValueA(4095)` on a channel with gain unset
produces the frame `0x1FFF`. -/
theorem mcp_C1_round_trip (r : Nat) (hr : r = 8 ∨ r = 10 ∨ r = 12) (s : MCPState)
    (hmax : s.max = 2 ^ r) (v : Nat) (hv : v < 2 ^ r) :
    lastFrameA (setValueA false s (v : Int)).1 &&& 4095 = v ∧
    (setValueA false s (v : Int)).2.2 = none ∧
    lastFrameA (setValueA false (initState 12) 4095).1 = 0x1FFF := by
  have hv4096 : v < 4096 := by
    rcases hr with h | h | h <;> subst h <;> norm_num at hv <;> omega
  have hvmax : v < s.max := by rw [hmax]; exact hv
  have h0 : ¬ ((v : Int) < 0) := by omega
  have h1 : ¬ ((s.max : Int) ≤ (v : Int)) := by exact_mod_cast not_le.mpr hvmax
  refine ⟨?_, ?_, ?_⟩
  · simp only [setValueA, if_neg h0, if_neg h1, updateDAC_per_chan, CHAN_A, CHAN_B,
      writeFramed, chipSelectLow, chipSelectHigh, turnOnChannelA, lastFrameA, reduceIte,
      Option.getD_some, Int.toNat_natCast]
    exact encodeBuf_frame_data false s.gain_A true v hv4096
  · simp [setValueA, if_neg h0, if_neg h1, updateDAC_per_chan, CHAN_A, CHAN_B,
      writeFramed, chipSelectLow, chipSelectHigh, turnOnChannelA, hvmax.not_le]
  · decide

/-- Witness for C1, applied at resolution 12 and value 4095. -/
theorem mcp_C1_round_trip_witness :
    ((12 : Nat) = 8 ∨ (12 : Nat) = 10 ∨ (12 : Nat) = 12) ∧
    lastFrameA (setValueA false (initState 12) ((4095 : Nat) : Int)).1 &&& 4095 = 4095 :=
  ⟨by decide,
   (mcp_C1_round_trip 12 (by decide) (initState 12) (by decide) 4095 (by decide)).1⟩

/-- C2 counterexample: constructing with the unrecognized model 16 does fail with
the `ValueError`, but the event trace up to the failure already contains the
creation of the chip-select `Pin` object (`Pin(cs, Pin.OUT)` at line 66 runs
before the model filter at lines 71-74), so the failure does not occur before
any pin object is created. -/
theorem mcp_C2_pin_before_check :
    (mcp_init 16 15 2 3 4).2 =
      Except.error (PyError.valueError "Not a valid type, use MCP4822, MCP4812, MCP4802") ∧
    (mcp_init 16 15 2 3 4).1 = [InitEvent.createPin 15] ∧
    InitEvent.createPin 15 ∈ (mcp_init 16 15 2 3 4).1 := by
  refine ⟨rfl, rfl, ?_⟩
  decide

/-- C2 (amended): for every model argument that is not one of the three
recognized chip variants, construction fails with the `ValueError` and no device
object is produced; the failure occurs before the SPI bus object and the
clock/data pin objects are created, but the chip-select pin object has already
been created. -/
theorem mcp_C2_invalid_model (model cs sck_pin mosi_pin miso_pin : Nat)
    (h : ¬ (model = MCP4822 ∨ model = MCP4812 ∨ model = MCP4802)) :
    (mcp_init model cs sck_pin mosi_pin miso_pin).2 =
      Except.error (PyError.valueError "Not a valid type, use MCP4822, MCP4812, MCP4802") ∧
    (mcp_init model cs sck_pin mosi_pin miso_pin).1 = [InitEvent.createPin cs] ∧
    InitEvent.createSPI ∉ (mcp_init model cs sck_pin mosi_pin miso_pin).1 := by
  have hres : mcp_init model cs sck_pin mosi_pin miso_pin =
      ([InitEvent.createPin cs],
       Except.error (PyError.valueError "Not a valid type, use MCP4822, MCP4812, MCP4802")) := by
    simp only [mcp_init]
    rw [if_pos h]
  exact ⟨by rw [hres], by rw [hres], by rw [hres]; simp⟩

/-- Witness for the amended C2, applied at model 16. -/
theorem mcp_C2_invalid_model_witness :
    (¬ ((16 : Nat) = MCP4822 ∨ (16 : Nat) = MCP4812 ∨ (16 : Nat) = MCP4802)) ∧
    (mcp_init 16 15 2 3 4).1 = [InitEvent.createPin 15] :=
  ⟨by decide, (mcp_C2_invalid_model 16 15 2 3 4 (by decide)).2.1⟩

/-- C3: an out-of-range value makes `setValueA`/`setValueB` fail with a
`ValueError` whose message distinguishes underflow from overflow; the state is
returned unchanged (so `rawValue`, `enabled` and `gain` of both channels are
untouched) and the bus/pin event trace is empty. -/
theorem mcp_C3_range_reject (wf : Bool) (s : MCPState) (v : Int)
    (h : v < 0 ∨ (s.max : Int) ≤ v) :
    (setValueA wf s v).1 = s ∧ (setValueA wf s v).2.1 = [] ∧
    (setValueB wf s v).1 = s ∧ (setValueB wf s v).2.1 = [] ∧
    (v < 0 →
      (setValueA wf s v).2.2 = some (PyError.valueError "Underflow value detected") ∧
      (setValueB wf s v).2.2 = some (PyError.valueError "Underflow value detected")) ∧
    (0 ≤ v →
      (setValueA wf s v).2.2 =
        some (PyError.valueError "Overflow value detected for configured chip") ∧
      (setValueB wf s v).2.2 =
        some (PyError.valueError "Overflow value reached for configured chip")) := by
  rcases h with h | h
  · simp [setValueA, setValueB, if_pos h, h.not_le]
  · have h0 : ¬ v < 0 := not_lt.mpr (le_trans (Int.natCast_nonneg _) h)
    simp [setValueA, setValueB, if_neg h0, if_pos h, h0]

/-- Witness for C3, applied at value -1 on a freshly constructed 12-bit device. -/
theorem mcp_C3_range_reject_witness :
    ((-1 : Int) < 0 ∨ (((initState 12).max : Nat) : Int) ≤ -1) ∧
    (setValueA false (initState 12) (-1)).1 = initState 12 ∧
    (setValueA false (initState 12) (-1)).2.1 = [] :=
  ⟨Or.inl (by decide),
   (mcp_C3_range_reject false (initState 12) (-1) (Or.inl (by decide))).1,
   (mcp_C3_range_reject false (initState 12) (-1) (Or.inl (by decide))).2.1⟩

/-- C4: every transfer performed by `updateDAC_per_chan` emits the chip-select
low transition strictly before the byte transmission and the chip-select high
transition exactly once afterwards, for both channels and also when the bus
write raises a `TransportError` (`wf = true`), in which case the error still
propagates. -/
theorem mcp_C4_chip_select (wf : Bool) (s : MCPState) (c : Nat) :
    ∃ buf,
      (updateDAC_per_chan wf s c).2.1 =
        [BusEvent.csLow, BusEvent.spiWrite buf, BusEvent.csHigh] ∧
      (wf = true → (updateDAC_per_chan wf s c).2.2 = some PyError.transportError) := by
  by_cases hc : c = CHAN_B
  · exact ⟨encodeBuf true s.gain_B s.on_B s.raw_value_B,
      by simp [updateDAC_per_chan, writeFramed, chipSelectLow, chipSelectHigh, hc],
      fun hw => by simp [updateDAC_per_chan, writeFramed, hc, hw]⟩
  · exact ⟨encodeBuf false s.gain_A s.on_A s.raw_value_A,
      by simp [updateDAC_per_chan, writeFramed, chipSelectLow, chipSelectHigh, hc],
      fun hw => by simp [updateDAC_per_chan, writeFramed, hc, hw]⟩

/-- C7: with resolution 12, `setGainB()` followed by `setValueB(0)` produces the
channel-B frame with channel-select bit 15 = 1, gain bit 13 = 1, power bit
12 = 1 and data bits 0, i.e. `0xB000`, transmitted high byte first. -/
theorem mcp_C7_gainB_frame :
    (setValueB false (setGainB (initState 12)) 0).1.dataB = some [0xB0, 0x00] ∧
    (setValueB false (setGainB (initState 12)) 0).2.1 =
      [BusEvent.csLow, BusEvent.spiWrite [0xB0, 0x00], BusEvent.csHigh] ∧
    frameOfBuf [0xB0, 0x00] = 0xB000 ∧
    Nat.testBit 0xB000 15 = true ∧ Nat.testBit 0xB000 14 = false ∧
    Nat.testBit 0xB000 13 = true ∧ Nat.testBit 0xB000 12 = true ∧
    0xB000 &&& 4095 = 0 := by
  decide

/-- C5: a successful `setValueA` (resp. `setValueB`) enables that channel, stores
the value as its raw value, and performs exactly one transfer, of the frame
encoded for that channel only; the other channel's enabled/gain/raw state and
its last-sent frame are unchanged, and no error is raised. -/
theorem mcp_C5_set_and_transmit (s : MCPState) (v : Int)
    (h0 : 0 ≤ v) (hmax : v < (s.max : Int)) :
    (setValueA false s v).1.on_A = true ∧
    (setValueA false s v).1.raw_value_A = v.toNat ∧
    (setValueA false s v).2.1 =
      [BusEvent.csLow, BusEvent.spiWrite (encodeBuf false s.gain_A true v.toNat),
       BusEvent.csHigh] ∧
    (setValueA false s v).1.dataA = some (encodeBuf false s.gain_A true v.toNat) ∧
    (setValueA false s v).2.2 = none ∧
    (setValueA false s v).1.on_B = s.on_B ∧
    (setValueA false s v).1.gain_B = s.gain_B ∧
    (setValueA false s v).1.raw_value_B = s.raw_value_B ∧
    (setValueA false s v).1.dataB = s.dataB ∧
    (setValueB false s v).1.on_B = true ∧
    (setValueB false s v).1.raw_value_B = v.toNat ∧
    (setValueB false s v).2.1 =
      [BusEvent.csLow, BusEvent.spiWrite (encodeBuf true s.gain_B true v.toNat),
       BusEvent.csHigh] ∧
    (setValueB false s v).1.dataB = some (encodeBuf true s.gain_B true v.toNat) ∧
    (setValueB false s v).2.2 = none ∧
    (setValueB false s v).1.on_A = s.on_A ∧
    (setValueB false s v).1.gain_A = s.gain_A ∧
    (setValueB false s v).1.raw_value_A = s.raw_value_A ∧
    (setValueB false s v).1.dataA = s.dataA := by
  have hlt : ¬ v < 0 := not_lt.mpr h0
  have hle : ¬ (s.max : Int) ≤ v := not_le.mpr hmax
  refine ⟨?_, ?_, ?_, ?_, ?_, ?_, ?_, ?_, ?_, ?_, ?_, ?_, ?_, ?_, ?_, ?_, ?_, ?_⟩ <;>
    simp [setValueA, setValueB, if_neg hlt, if_neg hle, updateDAC_per_chan, CHAN_A,
      CHAN_B, writeFramed, chipSelectLow, chipSelectHigh, turnOnChannelA, turnOnChannelB]

/-- Witness for C5, applied at value 7 on a freshly constructed 12-bit device. -/
theorem mcp_C5_set_and_transmit_witness :
    ((0 : Int) ≤ 7 ∧ (7 : Int) < (((initState 12).max : Nat) : Int)) ∧
    (setValueA false (initState 12) 7).1.on_A = true ∧
    (setValueA false (initState 12) 7).1.raw_value_A = (7 : Int).toNat :=
  ⟨⟨by decide, by decide⟩,
   (mcp_C5_set_and_transmit (initState 12) 7 (by decide) (by decide)).1,
   (mcp_C5_set_and_transmit (initState 12) 7 (by decide) (by decide)).2.1⟩

/-- C6: in every frame produced for a channel, bit 12 (power) equals that
channel's enabled flag; in particular `shutdownChannelA()` followed by
`updateDAC()` produces a channel-A frame with bit 12 = 0 and data bits 11-0
still equal to the previously stored raw value. -/
theorem mcp_C6_power_bit (s : MCPState)
    (hA : s.raw_value_A < 4096) (hB : s.raw_value_B < 4096) :
    Nat.testBit (lastFrameA (updateDAC_per_chan false s CHAN_A).1) 12 = s.on_A ∧
    Nat.testBit (lastFrameB (updateDAC_per_chan false s CHAN_B).1) 12 = s.on_B ∧
    Nat.testBit (lastFrameA (updateDAC false (shutdownChannelA s)).1) 12 = false ∧
    lastFrameA (updateDAC false (shutdownChannelA s)).1 &&& 4095 = s.raw_value_A := by
  refine ⟨?_, ?_, ?_, ?_⟩
  · simpa [updateDAC_per_chan, CHAN_A, CHAN_B, writeFramed, chipSelectLow,
      chipSelectHigh, lastFrameA] using encodeBuf_testBit12 false s.gain_A s.on_A _ hA
  · simpa [updateDAC_per_chan, CHAN_A, CHAN_B, writeFramed, chipSelectLow,
      chipSelectHigh, lastFrameB] using encodeBuf_testBit12 true s.gain_B s.on_B _ hB
  · simpa [updateDAC, updateDAC_per_chan, CHAN_A, CHAN_B, writeFramed, chipSelectLow,
      chipSelectHigh, lastFrameA, shutdownChannelA] using
      encodeBuf_testBit12 false s.gain_A false _ hA
  · simpa [updateDAC, updateDAC_per_chan, CHAN_A, CHAN_B, writeFramed, chipSelectLow,
      chipSelectHigh, lastFrameA, shutdownChannelA] using
      encodeBuf_frame_data false s.gain_A false _ hA

/-- Witness for C6, applied to a device with channel A enabled and raw value 5. -/
theorem mcp_C6_power_bit_witness :
    ((5 : Nat) < 4096 ∧ (0 : Nat) < 4096) ∧
    Nat.testBit
      (lastFrameA
        (updateDAC false
          (shutdownChannelA { initState 12 with raw_value_A := 5, on_A := true })).1)
      12 = false :=
  ⟨⟨by decide, by decide⟩,
   (mcp_C6_power_bit { initState 12 with raw_value_A := 5, on_A := true }
      (by decide) (by decide)).2.2.1⟩

/-! ### Preservation lemmas for operation sequences -/

lemma updateDAC_per_chan_pres (wf : Bool) (s : MCPState) (c : Nat) :
    (updateDAC_per_chan wf s c).1.max = s.max ∧
    (updateDAC_per_chan wf s c).1.raw_value_A = s.raw_value_A ∧
    (updateDAC_per_chan wf s c).1.raw_value_B = s.raw_value_B ∧
    (updateDAC_per_chan wf s c).1.data_A = s.data_A ∧
    (updateDAC_per_chan wf s c).1.data_B = s.data_B := by
  by_cases hc : c = CHAN_B <;>
    simp [updateDAC_per_chan, writeFramed, chipSelectLow, chipSelectHigh, hc]

lemma updateDAC_pres (wf : Bool) (s : MCPState) :
    (updateDAC wf s).1.max = s.max ∧
    (updateDAC wf s).1.raw_value_A = s.raw_value_A ∧
    (updateDAC wf s).1.raw_value_B = s.raw_value_B ∧
    (updateDAC wf s).1.data_A = s.data_A ∧
    (updateDAC wf s).1.data_B = s.data_B := by
  obtain ⟨m1, a1, b1, da1, db1⟩ := updateDAC_per_chan_pres wf s CHAN_A
  obtain ⟨m2, a2, b2, da2, db2⟩ :=
    updateDAC_per_chan_pres wf (updateDAC_per_chan wf s CHAN_A).1 CHAN_B
  unfold updateDAC
  cases h : (updateDAC_per_chan wf s CHAN_A).2.2 with
  | none =>
      simp only [h]
      exact ⟨m2.trans m1, a2.trans a1, b2.trans b1, da2.trans da1, db2.trans db1⟩
  | some e =>
      simp only [h]
      exact ⟨m1, a1, b1, da1, db1⟩

lemma runOp_pres (wf : Bool) (s : MCPState) (op : Op) :
    (runOp wf s op).1.max = s.max ∧
    (runOp wf s op).1.data_A = s.data_A ∧
    (runOp wf s op).1.data_B = s.data_B := by
  cases op with
  | valA v =>
      simp only [runOp, setValueA]
      split_ifs
      · exact ⟨rfl, rfl, rfl⟩
      · exact ⟨rfl, rfl, rfl⟩
      · obtain ⟨hm, _, _, hda, hdb⟩ := updateDAC_per_chan_pres wf
          { turnOnChannelA s with raw_value_A := v.toNat } CHAN_A
        exact ⟨hm, hda, hdb⟩
  | valB v =>
      simp only [runOp, setValueB]
      split_ifs
      · exact ⟨rfl, rfl, rfl⟩
      · exact ⟨rfl, rfl, rfl⟩
      · obtain ⟨hm, _, _, hda, hdb⟩ := updateDAC_per_chan_pres wf
          { turnOnChannelB s with raw_value_B := v.toNat } CHAN_B
        exact ⟨hm, hda, hdb⟩
  | updAll =>
      obtain ⟨hm, _, _, hda, hdb⟩ := updateDAC_pres wf s
      exact ⟨hm, hda, hdb⟩
  | updChan c =>
      obtain ⟨hm, _, _, hda, hdb⟩ := updateDAC_per_chan_pres wf s c
      exact ⟨hm, hda, hdb⟩
  | gainA => exact ⟨rfl, rfl, rfl⟩
  | gainB => exact ⟨rfl, rfl, rfl⟩
  | onA => exact ⟨rfl, rfl, rfl⟩
  | onB => exact ⟨rfl, rfl, rfl⟩
  | offA => exact ⟨rfl, rfl, rfl⟩
  | offB => exact ⟨rfl, rfl, rfl⟩

lemma runOp_rawInv (wf : Bool) (s : MCPState) (op : Op) (h : rawInv s) :
    rawInv (runOp wf s op).1 := by
  cases op with
  | valA v =>
      simp only [runOp, setValueA]
      split_ifs with h1 h2
      · exact h
      · exact h
      · obtain ⟨hm, hra, hrb, _, _⟩ := updateDAC_per_chan_pres wf
          { turnOnChannelA s with raw_value_A := v.toNat } CHAN_A
        refine ⟨?_, ?_⟩
        · rw [rawInv] at h
          rw [hm, hra]
          show v.toNat < s.max
          omega
        · rw [hm, hrb]
          exact h.2
  | valB v =>
      simp only [runOp, setValueB]
      split_ifs with h1 h2
      · exact h
      · exact h
      · obtain ⟨hm, hra, hrb, _, _⟩ := updateDAC_per_chan_pres wf
          { turnOnChannelB s with raw_value_B := v.toNat } CHAN_B
        refine ⟨?_, ?_⟩
        · rw [hm, hra]
          exact h.1
        · rw [rawInv] at h
          rw [hm, hrb]
          show v.toNat < s.max
          omega
  | updAll =>
      obtain ⟨hm, hra, hrb, _, _⟩ := updateDAC_pres wf s
      constructor
      · show (updateDAC wf s).1.raw_value_A < (updateDAC wf s).1.max
        rw [hm, hra]
        exact h.1
      · show (updateDAC wf s).1.raw_value_B < (updateDAC wf s).1.max
        rw [hm, hrb]
        exact h.2
  | updChan c =>
      obtain ⟨hm, hra, hrb, _, _⟩ := updateDAC_per_chan_pres wf s c
      constructor
      · show (updateDAC_per_chan wf s c).1.raw_value_A < (updateDAC_per_chan wf s c).1.max
        rw [hm, hra]
        exact h.1
      · show (updateDAC_per_chan wf s c).1.raw_value_B < (updateDAC_per_chan wf s c).1.max
        rw [hm, hrb]
        exact h.2
  | gainA => exact h
  | gainB => exact h
  | onA => exact h
  | onB => exact h
  | offA => exact h
  | offB => exact h

lemma runOps_rawInv (wf : Bool) (ops : List Op) (s : MCPState) (h : rawInv s) :
    rawInv (runOps wf s ops) := by
  induction ops generalizing s with
  | nil => exact h
  | cons op rest ih => exact ih _ (runOp_rawInv wf s op h)

lemma runOps_data (wf : Bool) (ops : List Op) (s : MCPState) :
    (runOps wf s ops).data_A = s.data_A ∧ (runOps wf s ops).data_B = s.data_B := by
  induction ops generalizing s with
  | nil => exact ⟨rfl, rfl⟩
  | cons op rest ih =>
      obtain ⟨h1, h2⟩ := ih (runOp wf s op).1
      obtain ⟨_, g1, g2⟩ := runOp_pres wf s op
      exact ⟨h1.trans g1, h2.trans g2⟩

/-- C8: the state-only mutators `setGainA`/`setGainB`, `turnOnChannelA`/
`turnOnChannelB` and `shutdownChannelA`/`shutdownChannelB` emit no bus or
chip-select event and modify only the per-channel flag; conversely, any
operation that emits a bus/pin event is a `setValue` or update operation. -/
theorem mcp_C8_state_only (wf : Bool) (s : MCPState) :
    runOp wf s Op.gainA = ({ s with gain_A := true }, [], none) ∧
    runOp wf s Op.gainB = ({ s with gain_B := true }, [], none) ∧
    runOp wf s Op.onA = ({ s with on_A := true }, [], none) ∧
    runOp wf s Op.onB = ({ s with on_B := true }, [], none) ∧
    runOp wf s Op.offA = ({ s with on_A := false }, [], none) ∧
    runOp wf s Op.offB = ({ s with on_B := false }, [], none) ∧
    ∀ op : Op, (runOp wf s op).2.1 ≠ [] →
      (∃ v, op = Op.valA v) ∨ (∃ v, op = Op.valB v) ∨
      op = Op.updAll ∨ ∃ c, op = Op.updChan c := by
  refine ⟨rfl, rfl, rfl, rfl, rfl, rfl, ?_⟩
  intro op hop
  cases op with
  | valA v => exact Or.inl ⟨v, rfl⟩
  | valB v => exact Or.inr (Or.inl ⟨v, rfl⟩)
  | updAll => exact Or.inr (Or.inr (Or.inl rfl))
  | updChan c => exact Or.inr (Or.inr (Or.inr ⟨c, rfl⟩))
  | gainA => exact absurd rfl hop
  | gainB => exact absurd rfl hop
  | onA => exact absurd rfl hop
  | onB => exact absurd rfl hop
  | offA => exact absurd rfl hop
  | offB => exact absurd rfl hop

/-- C9: on a constructed device both raw values start at 0 and, after any
sequence of public operations, each channel's raw value is still in
`[0, max)` with `max = 2^resolution`. -/
theorem mcp_C9_raw_invariant (m : Nat) (_hm : m = 8 ∨ m = 10 ∨ m = 12)
    (wf : Bool) (ops : List Op) :
    (initState m).raw_value_A = 0 ∧ (initState m).raw_value_B = 0 ∧
    rawInv (runOps wf (initState m) ops) := by
  refine ⟨rfl, rfl, runOps_rawInv wf ops _ ⟨?_, ?_⟩⟩ <;>
    · show (0 : Nat) < 2 ^ m
      positivity

/-- Witness for C9, applied at resolution 12 with a short operation sequence. -/
theorem mcp_C9_raw_invariant_witness :
    ((12 : Nat) = 8 ∨ (12 : Nat) = 10 ∨ (12 : Nat) = 12) ∧
    rawInv (runOps false (initState 12) [Op.valA 5, Op.gainB, Op.updAll]) :=
  ⟨by decide,
   (mcp_C9_raw_invariant 12 (by decide) false [Op.valA 5, Op.gainB, Op.updAll]).2.2⟩

/-- C10: the two-byte buffers `data_A` and `data_B` allocated at construction
are never modified by any later operation (they stay `[0, 0]` forever), while
`updateDAC_per_chan` stores the encoded frame in the differently named
attribute `dataA`, which is not `[0, 0]` after a transfer. -/
theorem mcp_C10_init_buffers_static (wf : Bool) (m : Nat) (ops : List Op) :
    (runOps wf (initState m) ops).data_A = [0, 0] ∧
    (runOps wf (initState m) ops).data_B = [0, 0] ∧
    (runOps false (initState 12) [Op.valA 5]).dataA =
      some (encodeBuf false false true 5) ∧
    encodeBuf false false true 5 ≠ [0, 0] := by
  obtain ⟨h1, h2⟩ := runOps_data wf ops (initState m)
  refine ⟨h1.trans rfl, h2.trans rfl, ?_, ?_⟩ <;> decide

end MCP48xx
